import Mathlib

/-!
Verification development for the fertility-policy projection engine.

The source defines a projection routine `simulateTFRImpactForCountry`
(multi-country variant, `src/pages/index.js`) and a near-duplicate
`simulateTFRImpact` (single-country variant, `src/pages/index1.js`).
We embed both shallowly: the accumulation loop over the four policies
becomes a `List.foldl` over the policy ids in object-key order, with
rational arithmetic for the purely rational parts and real arithmetic
(`Real.exp`, `min`, rounding) for the saturating transform, the
projected rate and the trajectory.  JavaScript division is modelled by
`jsDiv`, which returns NaN/±Infinity markers on a zero denominator the
way IEEE-754 division does.
-/

namespace FertilitySim

/-- The four socio-economic factor keys of `baseFactors`. -/
inductive Factor
  | educationCost | workLifeBalance | childcareCost | housingCost
  deriving DecidableEq

/-- The four policy ids, the keys of the `policies` state object. -/
inductive PolicyId
  | aiEducation | workplaceAI | childcareAI | housingAI
  deriving DecidableEq

/-- One entry of `aiInterventions` (index.js lines 55-84): the numeric
and factor data the simulation loop reads. -/
structure Intervention where
  maxImpact : ℚ
  costPerPoint : ℚ
  factors : List Factor

/-- `aiInterventions` from index.js lines 55-84. -/
def aiInterventions : PolicyId → Intervention
  | .aiEducation => ⟨0.15, 50000, [.educationCost]⟩
  | .workplaceAI => ⟨0.12, 75000, [.workLifeBalance]⟩
  | .childcareAI => ⟨0.10, 60000, [.childcareCost]⟩
  | .housingAI => ⟨0.08, 100000, [.housingCost]⟩

/-- `demographics` sub-object of a country entry. -/
structure Demographics where
  population : ℚ
  gdpPerCapita : ℚ
  femaleParticipation : ℚ

/-- A country entry of `countryData`. -/
structure CountryProfile where
  baseTFR : ℚ
  baseFactors : Factor → ℚ
  demographics : Demographics

/-- `countryData.south_korea` from index.js lines 22-36. -/
def southKorea : CountryProfile where
  baseTFR := 0.72
  baseFactors
    | .educationCost => 85
    | .workLifeBalance => 25
    | .childcareCost => 70
    | .housingCost => 90
  demographics := ⟨51.8, 35000, 59.2⟩

/-- `countryData.japan` from index.js lines 37-51 (baseTFR 1.20). -/
def japan : CountryProfile where
  baseTFR := 1.20
  baseFactors
    | .educationCost => 75
    | .workLifeBalance => 30
    | .childcareCost => 65
    | .housingCost => 80
  demographics := ⟨124.8, 40000, 71.2⟩

/-- The `policies` state object: intensity per policy id. -/
abbrev Policies := PolicyId → ℚ

/-- All-zero intensities, the initial and reset state. -/
def zeroPolicies : Policies := fun _ => 0

/-- All intensities at 100 (the "aggressive" preset). -/
def fullPolicies : Policies := fun _ => 100

/-- Accumulator of the `Object.keys(policies).forEach` loop in
`simulateTFRImpactForCountry` (index.js lines 88-109). -/
structure SimState where
  tfrImpact : ℚ
  totalCost : ℚ
  factorReductions : Factor → ℚ
  policyImpacts : PolicyId → ℚ
  policyCosts : PolicyId → ℚ

/-- Object-key order of the `policies` object (JS insertion order). -/
def policyOrder : List PolicyId :=
  [.aiEducation, .workplaceAI, .childcareAI, .housingAI]

/-- One iteration of the loop body (index.js lines 94-109). -/
def simStep (P : Policies) (s : SimState) (p : PolicyId) : SimState :=
  let intervention := aiInterventions p
  let intensity := P p / 100
  let policyImpact := intervention.maxImpact * intensity
  let policyCost := intervention.costPerPoint * P p
  { tfrImpact := s.tfrImpact + policyImpact
    totalCost := s.totalCost + policyCost
    factorReductions :=
      intervention.factors.foldl (fun fr factor =>
        let isPositiveFactor : Bool := factor = Factor.workLifeBalance
        let multiplier := if isPositiveFactor then 1 + intensity * 0.4 else 1 - intensity * 0.4
        Function.update fr factor (fr factor * multiplier)) s.factorReductions
    policyImpacts := Function.update s.policyImpacts p policyImpact
    policyCosts := Function.update s.policyCosts p (policyCost / 1000000) }

/-- State before the loop (index.js lines 88-92). -/
def initState (c : CountryProfile) : SimState where
  tfrImpact := 0
  totalCost := 0
  factorReductions := c.baseFactors
  policyImpacts := fun _ => 0
  policyCosts := fun _ => 0

/-- The whole accumulation loop of `simulateTFRImpactForCountry`. -/
def runSim (c : CountryProfile) (P : Policies) : SimState :=
  policyOrder.foldl (simStep P) (initState c)

/-- Line 99 of index.js: `policyCost = intervention.costPerPoint * policies[policy]`
(scaled by the raw 0-100 intensity, not the 0-1 fraction). -/
def policyCost (P : Policies) (p : PolicyId) : ℚ :=
  (aiInterventions p).costPerPoint * P p

/-- Line 111: `finalTFRIncrease = tfrImpact * (1 - Math.exp(-2 * tfrImpact))`. -/
noncomputable def finalTFRIncrease (c : CountryProfile) (P : Policies) : ℝ :=
  let t : ℝ := ((runSim c P).tfrImpact : ℝ)
  t * (1 - Real.exp (-2 * t))

/-- Line 112: `projectedTFR = Math.min(2.5, country.baseTFR + finalTFRIncrease)`. -/
noncomputable def projectedTFR (c : CountryProfile) (P : Policies) : ℝ :=
  min 2.5 ((c.baseTFR : ℝ) + finalTFRIncrease c P)

/-- `Number(x.toFixed(3))`: rounding to the nearest multiple of 1/1000
(ties away from zero for positives, matching JS `toFixed`). -/
noncomputable def round3 (x : ℝ) : ℝ :=
  ((round (x * 1000) : ℤ) : ℝ) / 1000

/-- One record pushed onto `projectionData` (index.js lines 118-123). -/
structure YearRecord where
  year : ℕ
  baseline : ℝ
  projected : ℝ
  target : ℝ

/-- The `projectionData` loop (index.js lines 114-124): year offsets
0..20, `progress = Math.min(1, year / 10)`, interpolated rate rounded
to three decimals, target fixed at 2.1. -/
noncomputable def projectionData (c : CountryProfile) (P : Policies) : List YearRecord :=
  (List.range 21).map fun (y : ℕ) =>
    let progress : ℝ := min 1 ((y : ℝ) / 10)
    let currentTFR : ℝ := (c.baseTFR : ℝ) + (projectedTFR c P - (c.baseTFR : ℝ)) * progress
    { year := 2025 + y
      baseline := (c.baseTFR : ℝ)
      projected := round3 currentTFR
      target := 2.1 }

/-- Line 127: `averageTFRIncrease = (projectedTFR - country.baseTFR) / 2`. -/
noncomputable def averageTFRIncrease (c : CountryProfile) (P : Policies) : ℝ :=
  (projectedTFR c P - (c.baseTFR : ℝ)) / 2

/-- Line 128: `populationIncrease = averageTFRIncrease * population * 1000`. -/
noncomputable def populationIncrease (c : CountryProfile) (P : Policies) : ℝ :=
  averageTFRIncrease c P * (c.demographics.population : ℝ) * 1000

/-- Line 131: `economicBenefit = populationIncrease * gdpPerCapita * 0.8`
(the raw, pre-division value). -/
noncomputable def economicBenefit (c : CountryProfile) (P : Policies) : ℝ :=
  populationIncrease c P * (c.demographics.gdpPerCapita : ℝ) * 0.8

/-- A JavaScript number result: either finite, an infinity, or NaN. -/
inductive JsNum
  | nan
  | posInf
  | negInf
  | num (x : ℝ)

/-- JavaScript (IEEE-754) division for non-NaN operands with a
non-negative-zero denominator: `0 / 0` is NaN, `a / 0` for `a ≠ 0` is a
signed infinity, otherwise ordinary real division. -/
noncomputable def jsDiv (a b : ℝ) : JsNum :=
  if b = 0 then
    if a = 0 then JsNum.nan else if 0 < a then JsNum.posInf else JsNum.negInf
  else JsNum.num (a / b)

/-- Line 140: `roi: economicBenefit / totalCost`, both raw values. -/
noncomputable def roi (c : CountryProfile) (P : Policies) : JsNum :=
  jsDiv (economicBenefit c P) (((runSim c P).totalCost : ℝ))

/-- The object returned by `simulateTFRImpactForCountry`
(index.js lines 133-144). -/
structure SimResult where
  projectedTFR : ℝ
  tfrIncrease : ℝ
  totalCost : ℚ
  projectionData : List YearRecord
  factorReductions : Factor → ℚ
  economicBenefit : ℝ
  roi : JsNum
  populationIncrease : ℝ
  policyImpacts : PolicyId → ℚ
  policyCosts : PolicyId → ℚ

/-- `simulateTFRImpactForCountry` (index.js lines 86-145): runs the
accumulation loop and assembles the result object, with `totalCost`
reported in millions and `economicBenefit` in billions. -/
noncomputable def simulateTFRImpactForCountry (c : CountryProfile) (P : Policies) : SimResult where
  projectedTFR := projectedTFR c P
  tfrIncrease := projectedTFR c P - (c.baseTFR : ℝ)
  totalCost := (runSim c P).totalCost / 1000000
  projectionData := projectionData c P
  factorReductions := (runSim c P).factorReductions
  economicBenefit := economicBenefit c P / 1000000000
  roi := roi c P
  populationIncrease := populationIncrease c P
  policyImpacts := (runSim c P).policyImpacts
  policyCosts := (runSim c P).policyCosts

/-! ### The single-country variant (`src/pages/index1.js`)

Same intervention table; `countryData.japan.baseTFR` is 1.26 there
(index1.js line 36) instead of 1.20, and the factor loop multiplies
every factor by `(1 - intensity * 0.4)` with no positive-factor case
(index1.js line 100).  Only the projected-rate pipeline matters for the
refinement claim, but we embed the whole loop faithfully. -/

/-- `aiInterventions` from index1.js lines 52-81 (same numbers). -/
def aiInterventions1 : PolicyId → Intervention
  | .aiEducation => ⟨0.15, 50000, [.educationCost]⟩
  | .workplaceAI => ⟨0.12, 75000, [.workLifeBalance]⟩
  | .childcareAI => ⟨0.10, 60000, [.childcareCost]⟩
  | .housingAI => ⟨0.08, 100000, [.housingCost]⟩

/-- `countryData.south_korea` from index1.js lines 19-33. -/
def southKorea1 : CountryProfile where
  baseTFR := 0.72
  baseFactors
    | .educationCost => 85
    | .workLifeBalance => 25
    | .childcareCost => 70
    | .housingCost => 90
  demographics := ⟨51.8, 35000, 59.2⟩

/-- `countryData.japan` from index1.js lines 34-48 (baseTFR 1.26). -/
def japan1 : CountryProfile where
  baseTFR := 1.26
  baseFactors
    | .educationCost => 75
    | .workLifeBalance => 30
    | .childcareCost => 65
    | .housingCost => 80
  demographics := ⟨124.8, 40000, 71.2⟩

/-- Accumulator of the loop in `simulateTFRImpact` (index1.js 88-102). -/
structure SimState1 where
  tfrImpact : ℚ
  totalCost : ℚ
  factorReductions : Factor → ℚ

/-- One iteration of the index1.js loop body (lines 92-102). -/
def simStep1 (P : Policies) (s : SimState1) (p : PolicyId) : SimState1 :=
  let intervention := aiInterventions1 p
  let intensity := P p / 100
  let policyImpact := intervention.maxImpact * intensity
  { tfrImpact := s.tfrImpact + policyImpact
    totalCost := s.totalCost + intervention.costPerPoint * P p
    factorReductions :=
      intervention.factors.foldl (fun fr factor =>
        Function.update fr factor (fr factor * (1 - intensity * 0.4))) s.factorReductions }

/-- The index1.js accumulation loop. -/
def runSim1 (c : CountryProfile) (P : Policies) : SimState1 :=
  policyOrder.foldl (simStep1 P) ⟨0, 0, c.baseFactors⟩

/-- index1.js lines 104-105: saturating increase and projected rate. -/
noncomputable def projectedTFR1 (c : CountryProfile) (P : Policies) : ℝ :=
  let t : ℝ := ((runSim1 c P).tfrImpact : ℝ)
  min 2.5 ((c.baseTFR : ℝ) + t * (1 - Real.exp (-2 * t)))

/-- The unique policy whose `factors` list contains the given factor
(each intervention declares exactly one factor, and no two declare the
same one). -/
def declaringPolicy : Factor → PolicyId
  | .educationCost => .aiEducation
  | .workLifeBalance => .workplaceAI
  | .childcareCost => .childcareAI
  | .housingCost => .housingAI

/-- The multiplicative adjustment the loop applies to a factor, as a
function of the declaring policy's intensity: `(1 + fraction * 0.4)`
for the positively-oriented work-life-balance factor, `(1 - fraction *
0.4)` for the cost factors (index.js lines 104-108). -/
def factorMultiplier (P : Policies) (f : Factor) : ℚ :=
  if f = Factor.workLifeBalance then 1 + P (declaringPolicy f) / 100 * 0.4
  else 1 - P (declaringPolicy f) / 100 * 0.4

/-! ### Closed forms of the accumulation loop -/

lemma tfrImpact_eq (c : CountryProfile) (P : Policies) :
    (runSim c P).tfrImpact =
      0.15 * (P .aiEducation / 100) + 0.12 * (P .workplaceAI / 100) +
      0.1 * (P .childcareAI / 100) + 0.08 * (P .housingAI / 100) := by
  simp only [runSim, policyOrder, List.foldl_cons, List.foldl_nil, simStep, initState,
    aiInterventions]
  ring

lemma totalCost_eq (c : CountryProfile) (P : Policies) :
    (runSim c P).totalCost =
      50000 * P .aiEducation + 75000 * P .workplaceAI +
      60000 * P .childcareAI + 100000 * P .housingAI := by
  simp only [runSim, policyOrder, List.foldl_cons, List.foldl_nil, simStep, initState,
    aiInterventions]
  ring

lemma factorReductions_eq (c : CountryProfile) (P : Policies) (f : Factor) :
    (runSim c P).factorReductions f = c.baseFactors f * factorMultiplier P f := by
  cases f <;>
    (simp only [runSim, policyOrder, List.foldl_cons, List.foldl_nil, simStep, initState,
      aiInterventions]
     simp [Function.update, factorMultiplier, declaringPolicy])

lemma policyImpacts_eq (c : CountryProfile) (P : Policies) (p : PolicyId) :
    (runSim c P).policyImpacts p = (aiInterventions p).maxImpact * (P p / 100) := by
  cases p <;>
    simp [runSim, policyOrder, simStep, initState, aiInterventions, Function.update_apply]

lemma policyCosts_eq (c : CountryProfile) (P : Policies) (p : PolicyId) :
    (runSim c P).policyCosts p = (aiInterventions p).costPerPoint * P p / 1000000 := by
  cases p <;>
    simp [runSim, policyOrder, simStep, initState, aiInterventions, Function.update_apply]

lemma tfrImpact1_eq (c : CountryProfile) (P : Policies) :
    (runSim1 c P).tfrImpact =
      0.15 * (P .aiEducation / 100) + 0.12 * (P .workplaceAI / 100) +
      0.1 * (P .childcareAI / 100) + 0.08 * (P .housingAI / 100) := by
  simp only [runSim1, policyOrder, List.foldl_cons, List.foldl_nil, simStep1,
    aiInterventions1]
  ring

lemma tfrImpact_nonneg (c : CountryProfile) (P : Policies)
    (hP : ∀ q, 0 ≤ P q) : 0 ≤ (runSim c P).tfrImpact := by
  rw [tfrImpact_eq]
  have h1 := hP PolicyId.aiEducation
  have h2 := hP PolicyId.workplaceAI
  have h3 := hP PolicyId.childcareAI
  have h4 := hP PolicyId.housingAI
  nlinarith

lemma tfrImpact_le (c : CountryProfile) (P : Policies)
    (hP : ∀ q, P q ≤ 100) : (runSim c P).tfrImpact ≤ 0.45 := by
  rw [tfrImpact_eq]
  have h1 := hP PolicyId.aiEducation
  have h2 := hP PolicyId.workplaceAI
  have h3 := hP PolicyId.childcareAI
  have h4 := hP PolicyId.housingAI
  nlinarith

/-! ### The saturating transform `t * (1 - e^(-2t))` -/

lemma sat_nonneg {t : ℝ} (ht : 0 ≤ t) : 0 ≤ t * (1 - Real.exp (-2 * t)) := by
  have h : Real.exp (-2 * t) ≤ 1 := by
    rw [show (1 : ℝ) = Real.exp 0 from Real.exp_zero.symm]
    exact Real.exp_le_exp.2 (by linarith)
  nlinarith

lemma sat_le_self {t : ℝ} (ht : 0 ≤ t) : t * (1 - Real.exp (-2 * t)) ≤ t := by
  have h : 0 < Real.exp (-2 * t) := Real.exp_pos _
  nlinarith

lemma sat_mono {s t : ℝ} (hs : 0 ≤ s) (hst : s ≤ t) :
    s * (1 - Real.exp (-2 * s)) ≤ t * (1 - Real.exp (-2 * t)) := by
  have h1 : Real.exp (-2 * t) ≤ Real.exp (-2 * s) := Real.exp_le_exp.2 (by linarith)
  have h2 : Real.exp (-2 * s) ≤ 1 := by
    rw [show (1 : ℝ) = Real.exp 0 from Real.exp_zero.symm]
    exact Real.exp_le_exp.2 (by linarith)
  exact mul_le_mul hst (by linarith) (by linarith) (le_trans hs hst)

/-! ### Numerical bounds on `e^(-0.9)` via the Taylor expansion -/

lemma abs_neg09 : |(-0.9 : ℝ)| = 0.9 := by
  rw [abs_of_neg (by norm_num : (-0.9 : ℝ) < 0)]
  norm_num

lemma exp_neg09_series :
    -(0.0000121 : ℝ) ≤ Real.exp (-0.9) - 2276735789 / 5600000000 ∧
      Real.exp (-0.9) - 2276735789 / 5600000000 ≤ 0.0000121 := by
  have h := Real.exp_bound (x := (-0.9 : ℝ)) (by rw [abs_neg09]; norm_num) (n := 8) (by norm_num)
  rw [abs_le] at h
  have hs : (∑ m ∈ Finset.range 8, (-0.9 : ℝ) ^ m / m.factorial) = 2276735789 / 5600000000 := by
    simp [Finset.sum_range_succ, Nat.factorial]
    norm_num
  rw [hs, abs_neg09] at h
  have hb : (0.9 : ℝ) ^ 8 * ((8 : ℕ).succ / ((8 : ℕ).factorial * 8)) ≤ 0.0000121 := by
    norm_num [Nat.factorial]
  constructor <;> linarith [h.1, h.2]

lemma exp_neg09_gt : (0.40654 : ℝ) < Real.exp (-0.9) := by
  linarith [exp_neg09_series.1]

lemma exp_neg09_lt : Real.exp (-0.9) < (0.40658 : ℝ) := by
  linarith [exp_neg09_series.2]

/-- C2: for every country profile and intensity vector, the projected
rate is `min(2.5, baselineRate + finalIncrease)` and hence never
exceeds the 2.5 ceiling, for any input combination. -/
theorem C2_projectedRate_ceiling (c : CountryProfile) (P : Policies) :
    (simulateTFRImpactForCountry c P).projectedTFR =
      min 2.5 ((c.baseTFR : ℝ) + finalTFRIncrease c P) ∧
    (simulateTFRImpactForCountry c P).projectedTFR ≤ 2.5 :=
  ⟨rfl, min_le_left _ _⟩

/-- C4: each policy's cost is `costPerPoint` times the raw 0-100
intensity (the reported per-policy cost is that value in millions),
its raw impact is `maxImpact` times the 0-1 fraction `intensity/100`,
and the accumulated `totalCost` is the sum of the four per-policy
costs. -/
theorem C4_cost_scaling (c : CountryProfile) (P : Policies) :
    (∀ p, policyCost P p = (aiInterventions p).costPerPoint * P p ∧
          (runSim c P).policyImpacts p = (aiInterventions p).maxImpact * (P p / 100) ∧
          (runSim c P).policyCosts p = policyCost P p / 1000000) ∧
    (runSim c P).totalCost = (policyOrder.map (policyCost P)).sum := by
  refine ⟨fun p => ⟨rfl, policyImpacts_eq c P p, by rw [policyCosts_eq]; rfl⟩, ?_⟩
  rw [totalCost_eq]
  simp [policyOrder, policyCost, aiInterventions]
  ring

/-- C5: each factor is adjusted multiplicatively by exactly the one
policy that declares it - work-life-balance by `(1 + fraction * 0.4)`
and each cost factor by `(1 - fraction * 0.4)` of its declaring
policy's intensity fraction - so a factor whose declaring policy has
intensity 0 keeps the country's baseline value unchanged. -/
theorem C5_factor_adjustment (c : CountryProfile) (P : Policies) :
    (∀ f, (simulateTFRImpactForCountry c P).factorReductions f =
          c.baseFactors f * factorMultiplier P f) ∧
    (∀ f, P (declaringPolicy f) = 0 →
          (simulateTFRImpactForCountry c P).factorReductions f = c.baseFactors f) := by
  refine ⟨fun f => factorReductions_eq c P f, fun f hf => ?_⟩
  have h : (simulateTFRImpactForCountry c P).factorReductions f =
      c.baseFactors f * factorMultiplier P f := factorReductions_eq c P f
  rw [h, factorMultiplier, hf]
  split <;> norm_num

/-- C5 witness: with all intensities zero, the education-cost factor of
the South Korea profile is returned unchanged. -/
theorem C5_factor_adjustment_witness :
    (simulateTFRImpactForCountry southKorea zeroPolicies).factorReductions Factor.educationCost =
      southKorea.baseFactors Factor.educationCost :=
  (C5_factor_adjustment southKorea zeroPolicies).2 Factor.educationCost rfl

/-- C6: for each of the two defined country profiles, all-zero
intensities give a projected rate equal to the baseline rate and a
reported total cost of 0. -/
theorem C6_all_zero (c : CountryProfile) (hc : c = southKorea ∨ c = japan) :
    (simulateTFRImpactForCountry c zeroPolicies).projectedTFR = (c.baseTFR : ℝ) ∧
    (simulateTFRImpactForCountry c zeroPolicies).totalCost = 0 := by
  have ht : (runSim c zeroPolicies).tfrImpact = 0 := by
    rw [tfrImpact_eq]; norm_num [zeroPolicies]
  constructor
  · show projectedTFR c zeroPolicies = (c.baseTFR : ℝ)
    unfold projectedTFR finalTFRIncrease
    rw [ht]
    rcases hc with rfl | rfl <;> norm_num [southKorea, japan]
  · show (runSim c zeroPolicies).totalCost / 1000000 = 0
    rw [totalCost_eq]; norm_num [zeroPolicies]

/-- C6 witness: instance at the Japan profile. -/
theorem C6_all_zero_witness :
    (simulateTFRImpactForCountry japan zeroPolicies).projectedTFR = (japan.baseTFR : ℝ) ∧
    (simulateTFRImpactForCountry japan zeroPolicies).totalCost = 0 :=
  C6_all_zero japan (Or.inr rfl)

/-- C1: with all four intensities in [0,100], raising any single
policy's intensity while holding the other three fixed can only keep
or raise the projected rate. -/
theorem C1_projectedRate_monotone (c : CountryProfile) (P : Policies)
    (hP : ∀ q, 0 ≤ P q ∧ P q ≤ 100) (p : PolicyId) (a b : ℚ)
    (ha : 0 ≤ a) (hab : a ≤ b) (hb : b ≤ 100) :
    (simulateTFRImpactForCountry c (Function.update P p a)).projectedTFR ≤
      (simulateTFRImpactForCountry c (Function.update P p b)).projectedTFR := by
  have hza : ∀ q, 0 ≤ Function.update P p a q := by
    intro q
    rcases eq_or_ne q p with rfl | hq
    · simpa using ha
    · simpa [Function.update_noteq hq] using (hP q).1
  have hs : (0 : ℚ) ≤ (runSim c (Function.update P p a)).tfrImpact :=
    tfrImpact_nonneg _ _ hza
  have hst : (runSim c (Function.update P p a)).tfrImpact ≤
      (runSim c (Function.update P p b)).tfrImpact := by
    rw [tfrImpact_eq, tfrImpact_eq]
    cases p <;> simp [Function.update_apply] <;> linarith
  show projectedTFR _ _ ≤ projectedTFR _ _
  unfold projectedTFR finalTFRIncrease
  refine min_le_min le_rfl (add_le_add_left ?_ _)
  have hsR : (0 : ℝ) ≤ ((runSim c (Function.update P p a)).tfrImpact : ℝ) := by
    exact_mod_cast hs
  have hstR : ((runSim c (Function.update P p a)).tfrImpact : ℝ) ≤
      ((runSim c (Function.update P p b)).tfrImpact : ℝ) := by exact_mod_cast hst
  exact sat_mono hsR hstR

/-- C1 witness: raising the education policy from 0 to 100 over the
all-zero vector for South Korea does not decrease the projected rate. -/
theorem C1_projectedRate_monotone_witness :
    (simulateTFRImpactForCountry southKorea
        (Function.update zeroPolicies PolicyId.aiEducation 0)).projectedTFR ≤
      (simulateTFRImpactForCountry southKorea
        (Function.update zeroPolicies PolicyId.aiEducation 100)).projectedTFR :=
  C1_projectedRate_monotone southKorea zeroPolicies
    (fun _ => by norm_num [zeroPolicies]) PolicyId.aiEducation 0 100
    (by norm_num) (by norm_num) (by norm_num)

/-- C7: when the accumulated `totalCost` is zero with non-negative
intensities (no policy active), `roi` is the IEEE-754 `0/0`, i.e. NaN,
for both defined country profiles - not a computed infinity. -/
theorem C7_roi_nan (c : CountryProfile) (hc : c = southKorea ∨ c = japan)
    (P : Policies) (hP : ∀ q, 0 ≤ P q) (h0 : (runSim c P).totalCost = 0) :
    (simulateTFRImpactForCountry c P).roi = JsNum.nan := by
  have hz : ∀ q, P q = 0 := by
    have h := h0
    rw [totalCost_eq] at h
    have h1 := hP PolicyId.aiEducation
    have h2 := hP PolicyId.workplaceAI
    have h3 := hP PolicyId.childcareAI
    have h4 := hP PolicyId.housingAI
    intro q
    cases q <;> linarith
  have ht : (runSim c P).tfrImpact = 0 := by
    rw [tfrImpact_eq, hz, hz, hz, hz]; norm_num
  have hproj : projectedTFR c P = (c.baseTFR : ℝ) := by
    unfold projectedTFR finalTFRIncrease
    rw [ht]
    rcases hc with rfl | rfl <;> norm_num [southKorea, japan]
  have hecon : economicBenefit c P = 0 := by
    unfold economicBenefit populationIncrease averageTFRIncrease
    rw [hproj]
    ring
  show roi c P = JsNum.nan
  unfold roi jsDiv
  rw [hecon, h0]
  norm_num

/-- C7 witness: Japan with the all-zero vector. -/
theorem C7_roi_nan_witness :
    (simulateTFRImpactForCountry japan zeroPolicies).roi = JsNum.nan :=
  C7_roi_nan japan (Or.inr rfl) zeroPolicies (fun _ => by norm_num [zeroPolicies])
    (by rw [totalCost_eq]; norm_num [zeroPolicies])

/-- C10: for both defined profiles and in-range intensities, every
returned factor value stays in [0,100] (cost factors shrink by a
multiplier in [0.6,1], work-life-balance grows by a multiplier in
[1,1.4] from a baseline of at most 30). -/
theorem C10_factor_range (c : CountryProfile) (hc : c = southKorea ∨ c = japan)
    (P : Policies) (hP : ∀ q, 0 ≤ P q ∧ P q ≤ 100) (f : Factor) :
    0 ≤ (simulateTFRImpactForCountry c P).factorReductions f ∧
      (simulateTFRImpactForCountry c P).factorReductions f ≤ 100 := by
  have h : (simulateTFRImpactForCountry c P).factorReductions f =
      c.baseFactors f * factorMultiplier P f := factorReductions_eq c P f
  rw [h]
  have hx := hP (declaringPolicy f)
  have hbase : 0 ≤ c.baseFactors f ∧ c.baseFactors f ≤ 100 := by
    rcases hc with rfl | rfl <;> cases f <;> norm_num [southKorea, japan]
  by_cases hf : f = Factor.workLifeBalance
  · have hb30 : c.baseFactors f ≤ 30 := by
      rcases hc with rfl | rfl <;> rw [hf] <;> norm_num [southKorea, japan]
    rw [factorMultiplier, if_pos hf]
    constructor <;> nlinarith [hx.1, hx.2, hbase.1, hb30]
  · rw [factorMultiplier, if_neg hf]
    constructor <;> nlinarith [hx.1, hx.2, hbase.1, hbase.2]

/-- C10 witness: Japan, all-zero intensities, housing-cost factor. -/
theorem C10_factor_range_witness :
    0 ≤ (simulateTFRImpactForCountry japan zeroPolicies).factorReductions Factor.housingCost ∧
      (simulateTFRImpactForCountry japan zeroPolicies).factorReductions Factor.housingCost ≤ 100 :=
  C10_factor_range japan (Or.inr rfl) zeroPolicies
    (fun _ => by norm_num [zeroPolicies]) Factor.housingCost

/-! ### Numerical facts about South Korea at full intensity -/

lemma skFull_tfrImpact : (runSim southKorea fullPolicies).tfrImpact = 0.45 := by
  rw [tfrImpact_eq]; norm_num [fullPolicies]

lemma skFull_increase :
    finalTFRIncrease southKorea fullPolicies = 0.45 * (1 - Real.exp (-0.9)) := by
  unfold finalTFRIncrease
  rw [skFull_tfrImpact]
  have hc : (((0.45 : ℚ) : ℝ)) = 0.45 := by norm_num
  rw [hc]
  show (0.45 : ℝ) * (1 - Real.exp (-2 * 0.45)) = 0.45 * (1 - Real.exp (-0.9))
  have he : (-2 : ℝ) * 0.45 = -0.9 := by norm_num
  rw [he]

lemma skFull_increase_bounds :
    (0.267039 : ℝ) < finalTFRIncrease southKorea fullPolicies ∧
      finalTFRIncrease southKorea fullPolicies < 0.267057 := by
  rw [skFull_increase]
  constructor <;> nlinarith [exp_neg09_gt, exp_neg09_lt]

lemma skFull_proj :
    (simulateTFRImpactForCountry southKorea fullPolicies).projectedTFR =
      (0.72 : ℝ) + finalTFRIncrease southKorea fullPolicies := by
  show projectedTFR southKorea fullPolicies = _
  unfold projectedTFR
  have hb : ((southKorea.baseTFR : ℚ) : ℝ) = 0.72 := by norm_num [southKorea]
  rw [hb]
  refine min_eq_right ?_
  have h := skFull_increase_bounds
  linarith [h.2]

lemma skFull_proj_bounds :
    (0.987039 : ℝ) < (simulateTFRImpactForCountry southKorea fullPolicies).projectedTFR ∧
      (simulateTFRImpactForCountry southKorea fullPolicies).projectedTFR < 0.987057 := by
  rw [skFull_proj]
  have h := skFull_increase_bounds
  constructor <;> linarith [h.1, h.2]

/-- C8: South Korea at all intensities 100: the accumulated raw impact
is exactly 0.45 = 0.15+0.12+0.10+0.08, the saturating increase is
0.45 x (1 - e^(-0.9)), within 0.001 of 0.267, and the projected rate
is within 0.001 of 0.987. -/
theorem C8_south_korea_full :
    (runSim southKorea fullPolicies).tfrImpact = 0.15 + 0.12 + 0.10 + 0.08 ∧
    finalTFRIncrease southKorea fullPolicies = 0.45 * (1 - Real.exp (-0.9)) ∧
    |finalTFRIncrease southKorea fullPolicies - 0.267| < 0.001 ∧
    |(simulateTFRImpactForCountry southKorea fullPolicies).projectedTFR - 0.987| < 0.001 := by
  refine ⟨by rw [skFull_tfrImpact]; norm_num, skFull_increase, ?_, ?_⟩
  · have h := skFull_increase_bounds
    rw [abs_lt]
    constructor <;> linarith [h.1, h.2]
  · have h := skFull_proj_bounds
    rw [abs_lt]
    constructor <;> linarith [h.1, h.2]

lemma projectionData_getElem (c : CountryProfile) (P : Policies) (y : ℕ) (hy : y < 21) :
    (projectionData c P)[y]? = some
      { year := 2025 + y
        baseline := (c.baseTFR : ℝ)
        projected := round3 ((c.baseTFR : ℝ) +
          (projectedTFR c P - (c.baseTFR : ℝ)) * min 1 ((y : ℝ) / 10))
        target := 2.1 } := by
  unfold projectionData
  rw [List.getElem?_map, List.getElem?_range hy]
  rfl

lemma round3_eq_of (x : ℝ) (z : ℤ) (h1 : (z : ℝ) ≤ x * 1000 + 1 / 2)
    (h2 : x * 1000 + 1 / 2 < z + 1) : round3 x = (z : ℝ) / 1000 := by
  unfold round3
  rw [round_eq, Int.floor_eq_iff.2 ⟨h1, h2⟩]

lemma min_one_div_ten (y : ℕ) (hy : 10 ≤ y) : min (1 : ℝ) ((y : ℝ) / 10) = 1 := by
  have h : (10 : ℝ) ≤ (y : ℝ) := by exact_mod_cast hy
  rw [min_eq_left]
  linarith

/-- C3 counterexample: for South Korea at all intensities 100, the
trajectory record at year offset 10 stores the projected rate rounded
to three decimals (0.987), which is strictly below the exact projected
rate, so the record does not equal `projectedRate` exactly. -/
theorem C3_counterexample :
    ((projectionData southKorea fullPolicies)[10]?).map YearRecord.projected ≠
      some (projectedTFR southKorea fullPolicies) := by
  rw [projectionData_getElem southKorea fullPolicies 10 (by norm_num)]
  have hsat : min (1 : ℝ) (((10 : ℕ) : ℝ) / 10) = 1 := min_one_div_ten 10 le_rfl
  intro hcontra
  simp only [Option.map_some', Option.some.injEq] at hcontra
  have hrec : round3 ((southKorea.baseTFR : ℝ) +
      (projectedTFR southKorea fullPolicies - (southKorea.baseTFR : ℝ)) *
        min 1 (((10 : ℕ) : ℝ) / 10)) = projectedTFR southKorea fullPolicies := hcontra
  rw [hsat, mul_one, add_sub_cancel] at hrec
  have hproj : (0.987039 : ℝ) < projectedTFR southKorea fullPolicies ∧
      projectedTFR southKorea fullPolicies < 0.987057 := skFull_proj_bounds
  have hr : round3 (projectedTFR southKorea fullPolicies) = ((987 : ℤ) : ℝ) / 1000 := by
    apply round3_eq_of
    · push_cast
      linarith [hproj.1]
    · push_cast
      linarith [hproj.2]
  rw [hrec] at hr
  have hv : projectedTFR southKorea fullPolicies = 0.987 := by
    rw [hr]; norm_num
  linarith [hproj.1, hv.symm.le]


/-- C3 (amended): for both defined profiles and any intensity vector,
the record at year offset 0 stores the baseline rate exactly, and every
record at year offsets 10 through 20 stores the three-decimal rounding
of `projectedRate` (the pre-rounding interpolated value equals
`projectedRate` exactly because the progress ramp saturates at 1). -/
theorem C3_trajectory_amended (c : CountryProfile) (hc : c = southKorea ∨ c = japan)
    (P : Policies) :
    ((projectionData c P)[0]?).map YearRecord.projected = some ((c.baseTFR : ℝ)) ∧
    ∀ y : ℕ, 10 ≤ y → y ≤ 20 →
      ((projectionData c P)[y]?).map YearRecord.projected =
        some (round3 (projectedTFR c P)) := by
  constructor
  · rw [projectionData_getElem c P 0 (by norm_num)]
    simp only [Option.map_some', Option.some.injEq]
    have h0 : min (1 : ℝ) (((0 : ℕ) : ℝ) / 10) = ((0 : ℕ) : ℝ) / 10 := by
      rw [min_eq_right]
      norm_num
    rw [h0]
    norm_num
    rcases hc with rfl | rfl
    · have h := round3_eq_of ((southKorea.baseTFR : ℝ)) 720 (by norm_num [southKorea])
        (by norm_num [southKorea])
      rw [h]
      norm_num [southKorea]
    · have h := round3_eq_of ((japan.baseTFR : ℝ)) 1200 (by norm_num [japan])
        (by norm_num [japan])
      rw [h]
      norm_num [japan]
  · intro y hy1 hy2
    rw [projectionData_getElem c P y (by omega)]
    simp only [Option.map_some', Option.some.injEq]
    rw [min_one_div_ten y hy1, mul_one, add_sub_cancel]

/-- C3 witness: South Korea with the all-zero vector, records at year
offsets 0 and 10. -/
theorem C3_trajectory_amended_witness :
    ((projectionData southKorea zeroPolicies)[0]?).map YearRecord.projected =
        some ((southKorea.baseTFR : ℝ)) ∧
    ((projectionData southKorea zeroPolicies)[10]?).map YearRecord.projected =
        some (round3 (projectedTFR southKorea zeroPolicies)) :=
  ⟨(C3_trajectory_amended southKorea (Or.inl rfl) zeroPolicies).1,
   (C3_trajectory_amended southKorea (Or.inl rfl) zeroPolicies).2 10 (by norm_num)
     (by norm_num)⟩

/-! ### Comparing the two variants -/

lemma projectedTFR_eq (c : CountryProfile) (P : Policies) :
    projectedTFR c P = min 2.5 ((c.baseTFR : ℝ) +
      ((runSim c P).tfrImpact : ℝ) *
        (1 - Real.exp (-2 * ((runSim c P).tfrImpact : ℝ)))) := rfl

lemma projectedTFR1_eq (c : CountryProfile) (P : Policies) :
    projectedTFR1 c P = min 2.5 ((c.baseTFR : ℝ) +
      ((runSim1 c P).tfrImpact : ℝ) *
        (1 - Real.exp (-2 * ((runSim1 c P).tfrImpact : ℝ)))) := rfl

/-- C9 counterexample: at the all-zero vector the single-country
variant projects 1.26 for japan, the multi-country variant 1.20, so
the two variants disagree on japan. -/
theorem C9_counterexample :
    projectedTFR1 japan1 zeroPolicies ≠ projectedTFR japan zeroPolicies := by
  have h1 : (runSim1 japan1 zeroPolicies).tfrImpact = 0 := by
    rw [tfrImpact1_eq]
    norm_num [zeroPolicies]
  have h2 : (runSim japan zeroPolicies).tfrImpact = 0 := by
    rw [tfrImpact_eq]
    norm_num [zeroPolicies]
  rw [projectedTFR1_eq, projectedTFR_eq, h1, h2]
  norm_num [japan1, japan, min_def]

/-- C9 (amended): the two variants agree on south_korea for every
in-range intensity vector, but on japan the single-country variant's
projected rate exceeds the multi-country variant's by exactly 0.06,
the difference of the two baselines (1.26 vs 1.20). -/
theorem C9_amended (P : Policies) (hP : ∀ q, 0 ≤ P q ∧ P q ≤ 100) :
    projectedTFR1 southKorea1 P = projectedTFR southKorea P ∧
    projectedTFR1 japan1 P = projectedTFR japan P + 0.06 := by
  have hts : (runSim1 southKorea1 P).tfrImpact = (runSim southKorea P).tfrImpact := by
    rw [tfrImpact1_eq, tfrImpact_eq]
  have htj : (runSim1 japan1 P).tfrImpact = (runSim japan P).tfrImpact := by
    rw [tfrImpact1_eq, tfrImpact_eq]
  have h0 : (0 : ℚ) ≤ (runSim japan P).tfrImpact :=
    tfrImpact_nonneg _ _ (fun q => (hP q).1)
  have h45 : (runSim japan P).tfrImpact ≤ 0.45 :=
    tfrImpact_le _ _ (fun q => (hP q).2)
  have h0R : (0 : ℝ) ≤ ((runSim japan P).tfrImpact : ℝ) := by exact_mod_cast h0
  have h45R : ((runSim japan P).tfrImpact : ℝ) ≤ 0.45 := by
    rw [show (0.45 : ℝ) = ((0.45 : ℚ) : ℝ) by norm_num]
    exact_mod_cast h45
  have hincl := sat_nonneg h0R
  have hincu := sat_le_self h0R
  constructor
  · rw [projectedTFR1_eq, projectedTFR_eq, hts]
    have hbase : ((southKorea1.baseTFR : ℚ) : ℝ) = ((southKorea.baseTFR : ℚ) : ℝ) := by
      norm_num [southKorea1, southKorea]
    rw [hbase]
  · rw [projectedTFR1_eq, projectedTFR_eq, htj]
    have hb1 : ((japan1.baseTFR : ℚ) : ℝ) = 1.26 := by norm_num [japan1]
    have hb : ((japan.baseTFR : ℚ) : ℝ) = 1.2 := by norm_num [japan]
    rw [hb1, hb]
    rw [min_eq_right (by linarith), min_eq_right (by linarith)]
    ring

/-- C9 witness: the amended statement at the all-zero vector. -/
theorem C9_amended_witness :
    projectedTFR1 southKorea1 zeroPolicies = projectedTFR southKorea zeroPolicies ∧
    projectedTFR1 japan1 zeroPolicies = projectedTFR japan zeroPolicies + 0.06 :=
  C9_amended zeroPolicies (fun _ => by norm_num [zeroPolicies])

end FertilitySim
